import Mathlib

/-!
Shallow embedding of the Cognitive Streetlight Control System frontend
(`SmartCityContext.tsx`, `EmergencyAlerts.tsx`, `Dashboard.tsx`): the alert
store and its mutation operations, the SSE stream consumers, the entity
(streetlight) projection, the metrics slot and the rolling history buffers.
Numbers carried by the stream (JS `number`) are modelled as `ℚ`; timestamps
produced by `Date.now()` are modelled as `Nat` milliseconds; the values drawn
from `Math.random()` are passed in explicitly as nondeterministic inputs.
-/

namespace SmartCity

/-- Alert severity, from the `Alert` interface in `SmartCityContext.tsx`. -/
inductive Severity where
  | critical
  | high
  | medium
  | low
deriving DecidableEq

/-- Alert status, from the `Alert` interface in `SmartCityContext.tsx`. -/
inductive AlertStatus where
  | active
  | resolved
  | investigating
deriving DecidableEq

/-- The `Streetlight` interface of `SmartCityContext.tsx`. -/
structure Streetlight where
  id : String
  brightness : ℚ
  status : String
deriving DecidableEq

/-- The `Alert` interface of `SmartCityContext.tsx`.  Fields marked `?` in
the TypeScript interface are `Option`s. -/
structure Alert where
  id : String
  type : String
  severity : Severity
  location : String
  coordinates : Option (ℚ × ℚ) := none
  description : Option String := none
  timestamp : String
  status : Option AlertStatus := none
  responders : Option ℚ := none
deriving DecidableEq

/-- A `Partial<Alert>` value: each field is present or absent.  A present
field carries a defined value, as at every `updateAlert` call site. -/
structure AlertPatch where
  id : Option String := none
  type : Option String := none
  severity : Option Severity := none
  location : Option String := none
  coordinates : Option (ℚ × ℚ) := none
  description : Option String := none
  timestamp : Option String := none
  status : Option AlertStatus := none
  responders : Option ℚ := none
deriving DecidableEq

/-- The JS object spread `{ ...alert, ...updates }`: fields present in the
patch override, absent fields are kept. -/
def mergeAlert (a : Alert) (p : AlertPatch) : Alert where
  id := p.id.getD a.id
  type := p.type.getD a.type
  severity := p.severity.getD a.severity
  location := p.location.getD a.location
  coordinates := match p.coordinates with
    | some c => some c
    | none => a.coordinates
  description := match p.description with
    | some d => some d
    | none => a.description
  timestamp := p.timestamp.getD a.timestamp
  status := match p.status with
    | some s => some s
    | none => a.status
  responders := match p.responders with
    | some r => some r
    | none => a.responders

/-- `addAlert` in `SmartCityContext.tsx`:
`setAlerts(prev => [newAlert, ...prev].slice(0, 20))`. -/
def addAlert (alerts : List Alert) (newAlert : Alert) : List Alert :=
  (newAlert :: alerts).take 20

/-- `updateAlert` in `SmartCityContext.tsx`:
`prev.map(alert => alert.id === alertId ? { ...alert, ...updates } : alert)`. -/
def updateAlert (alerts : List Alert) (alertId : String) (updates : AlertPatch) :
    List Alert :=
  alerts.map fun alert => if alert.id = alertId then mergeAlert alert updates else alert

/-- The derived `activeIncidents` memo in `SmartCityContext.tsx`:
`alerts.filter(a => a.status === 'active' || a.status === 'investigating').length`. -/
def activeIncidents (alerts : List Alert) : Nat :=
  (alerts.filter fun a =>
    decide (a.status = some AlertStatus.active ∨ a.status = some AlertStatus.investigating)).length

/-- The dedup test of `EmergencyAlerts.tsx`:
`alertsRef.current.some(a => a.type === 'accident' && a.status === 'active')`. -/
def hasActiveAccident (alerts : List Alert) : Bool :=
  alerts.any fun a => decide (a.type = "accident" ∧ a.status = some AlertStatus.active)

/-- Number of alerts that are of kind `accident` and in `active` status. -/
def countActiveAccident (alerts : List Alert) : Nat :=
  alerts.countP fun a => decide (a.type = "accident" ∧ a.status = some AlertStatus.active)

/-- The `metrics` record of `SmartCityContext.tsx` / the `metrics` field of a
stream message. -/
structure Metrics where
  active_power : ℚ
  baseline_100 : ℚ
  baseline_70 : ℚ
  savings_vs_100 : ℚ
  savings_vs_70 : ℚ
  brightness_dist : List ℚ
  occupancy : ℚ
  pedestrians : ℚ
  vehicles : ℚ
  sim_time : ℚ
deriving DecidableEq

/-- A successfully parsed stream record: any subset of the recognized
top-level fields may be present (`data.prediction`, `data.confidence`,
`data.streetlights`, `data.metrics`). -/
structure StreamData where
  prediction : Option String := none
  confidence : Option ℚ := none
  streetlights : Option (List Streetlight) := none
  metrics : Option Metrics := none
deriving DecidableEq

/-- One SSE message: either its payload parses (`JSON.parse` succeeds) to a
`StreamData`, or it is malformed and `JSON.parse` throws. -/
inductive Msg where
  | ok (d : StreamData)
  | malformed
deriving DecidableEq

/-- `data.confidence > 90` in JS: comparing an absent (`undefined`)
confidence with a number is false. -/
def confAbove90 : Option ℚ → Bool
  | some c => decide (90 < c)
  | none => false

/-- The nondeterministic inputs consumed when `EmergencyAlerts.tsx` creates
an alert: the `Date.now()` clock reading and the two `Math.random()` draws
(for the location number and the responders seed). -/
structure Fresh where
  now : Nat
  loc : Nat
  coord : ℚ × ℚ
  resp : Nat

/-- `confidence.toFixed(1)` for the nonnegative rationals the stream carries:
round to one decimal (half away from zero, as JS does for these values) and
print `d.d`. -/
def toFixed1 (q : ℚ) : String :=
  let t : ℤ := round (q * 10)
  toString (t / 10) ++ "." ++ toString (t % 10)

/-- The alert literal built by `EmergencyAlerts.tsx` when a qualifying
accident prediction arrives (id `Date.now().toString()`, kind `accident`,
severity `critical`, random intersection, `status: 'active'`, responders
`Math.floor(Math.random() * 3) + 1`). -/
def mkAccidentAlert (conf : ℚ) (f : Fresh) : Alert where
  id := toString f.now
  type := "accident"
  severity := Severity.critical
  location := "Intersection " ++ toString (f.loc % 100)
  coordinates := some f.coord
  description := some ("Vehicle collision detected with " ++ toFixed1 conf ++ "% confidence.")
  timestamp := "Just now"
  status := some AlertStatus.active
  responders := some ((f.resp % 3 + 1 : ℕ) : ℚ)

/-- The alert-list effect of one parsed stream record on the
`EmergencyAlerts.tsx` consumer: if `data.prediction === 'Accident' &&
data.confidence > 90` and no `accident` alert is currently `active`, the new
alert is added; otherwise the list is unchanged. -/
def reconcile (alerts : List Alert) (d : StreamData) (f : Fresh) : List Alert :=
  if d.prediction = some "Accident" ∧ confAbove90 d.confidence then
    if hasActiveAccident alerts then alerts
    else addAlert alerts (mkAccidentAlert (d.confidence.getD 0) f)
  else alerts

/-- State owned by the `EmergencyAlerts.tsx` consumer: the alert list plus a
count of the `console.warn('Failed to parse SSE event', e)` diagnostics. -/
structure EAState where
  alerts : List Alert
  decodeFailures : Nat
deriving DecidableEq

/-- The `onmessage` handler of `EmergencyAlerts.tsx`: the whole body is
inside `try { ... } catch (e) { console.warn(...) }`, so a malformed payload
only logs a diagnostic and changes nothing else. -/
def ingestEA (s : EAState) (m : Msg) (f : Fresh) : EAState :=
  match m with
  | Msg.malformed => { s with decodeFailures := s.decodeFailures + 1 }
  | Msg.ok d => { s with alerts := reconcile s.alerts d f }

/-- Outcome of the `fetch('http://localhost:5000/respond', ...)` call in
`AlertCard`: an acknowledged response (`json.status === 'ok'`), a response
whose body is anything else (including unparseable JSON, which
`res.json().catch(() => null)` turns into `null`), or a thrown network
error landing in the `catch` block. -/
inductive DispatchOutcome where
  | ok
  | nonOk
  | networkFailure
deriving DecidableEq

/-- The optimistic phase of `AlertCard`'s `Send Response` handler (action
`'dispatch'`), run before the request is issued: `updateAlert(alert.id,
{ status: 'investigating', responders: (alert.responders || 0) + 1 })`.
`a` is the alert rendered by the card. -/
def dispatchBegin (alerts : List Alert) (a : Alert) : List Alert :=
  updateAlert alerts a.id
    { status := some AlertStatus.investigating, responders := some (a.responders.getD 0 + 1) }

/-- The completion phase of `AlertCard`'s `Send Response` handler: on
`status: 'ok'` it sets `{ status: 'investigating' }`, on any other response
or on a thrown exception it sets `{ status: 'active' }`. -/
def dispatchEnd (alerts : List Alert) (a : Alert) (outcome : DispatchOutcome) :
    List Alert :=
  match outcome with
  | DispatchOutcome.ok => updateAlert alerts a.id { status := some AlertStatus.investigating }
  | DispatchOutcome.nonOk => updateAlert alerts a.id { status := some AlertStatus.active }
  | DispatchOutcome.networkFailure => updateAlert alerts a.id { status := some AlertStatus.active }

/-- One whole `Send Response` dispatch interaction (action `'dispatch'`),
uninterleaved: optimistic update, then the outcome-dependent completion. -/
def dispatchSend (alerts : List Alert) (a : Alert) (outcome : DispatchOutcome) :
    List Alert :=
  dispatchEnd (dispatchBegin alerts a) a outcome

/-- One whole `Request Ambulance` dispatch interaction (action
`'ambulance'`): this handler performs NO optimistic update and never
touches `responders`; it only sets `{ status: 'investigating' }` on
`status: 'ok'` and `{ status: 'active' }` on any other response or thrown
exception (opening the maps window is an external effect). -/
def ambulanceSend (alerts : List Alert) (a : Alert) (outcome : DispatchOutcome) :
    List Alert :=
  match outcome with
  | DispatchOutcome.ok => updateAlert alerts a.id { status := some AlertStatus.investigating }
  | DispatchOutcome.nonOk => updateAlert alerts a.id { status := some AlertStatus.active }
  | DispatchOutcome.networkFailure => updateAlert alerts a.id { status := some AlertStatus.active }

/-- The responders column of an alert list, in order. -/
def alertResponders (alerts : List Alert) : List (Option ℚ) :=
  alerts.map fun a => a.responders

/-- An event or operator action touching the alert list: a stream message
ingested by the reconciler, the two halves of a dispatch (which interleave
with message arrivals, since the handler awaits the fetch in between), or a
direct `updateAlert` (e.g. resolving an alert). -/
inductive Action where
  | ingest (m : Msg) (f : Fresh)
  | dispatchBegin (a : Alert)
  | dispatchEnd (a : Alert) (outcome : DispatchOutcome)
  | opUpdate (alertId : String) (updates : AlertPatch)

/-- One step of the alert list under an `Action`. -/
def stepAlert (alerts : List Alert) : Action → List Alert
  | Action.ingest m f =>
    match m with
    | Msg.malformed => alerts
    | Msg.ok d => reconcile alerts d f
  | Action.dispatchBegin a => dispatchBegin alerts a
  | Action.dispatchEnd a outcome => dispatchEnd alerts a outcome
  | Action.opUpdate alertId updates => updateAlert alerts alertId updates

/-- Run a sequence of actions from an initial alert list. -/
def runAlerts (alerts : List Alert) (as : List Action) : List Alert :=
  as.foldl stepAlert alerts

/-- One point of the power history: `{ time, active, base100, base70 }`. -/
structure PowerPoint where
  time : String
  active : ℚ
  base100 : ℚ
  base70 : ℚ
deriving DecidableEq

/-- One point of the savings history: `{ time, sav100, sav70 }`. -/
structure SavingsPoint where
  time : String
  sav100 : ℚ
  sav70 : ℚ
deriving DecidableEq

/-- One point of the occupancy-vs-brightness history:
`{ x: avg brightness, y: occupancy }`. -/
structure OccPoint where
  x : ℚ
  y : ℚ
deriving DecidableEq

/-- The history-buffer append of `Dashboard.tsx`:
`setX(prev => [...prev, p].slice(-C))`.  `Array.prototype.slice(-C)` keeps
the last `C` elements (all of them when fewer than `C` exist). -/
def pushHist (C : Nat) (hist : List α) (p : α) : List α :=
  let l := hist ++ [p]
  l.drop (l.length - C)

/-- The zero-valued initial `metrics` state of `SmartCityContext.tsx`. -/
def initialMetrics : Metrics where
  active_power := 0
  baseline_100 := 0
  baseline_70 := 0
  savings_vs_100 := 0
  savings_vs_70 := 0
  brightness_dist := []
  occupancy := 0
  pedestrians := 0
  vehicles := 0
  sim_time := 0

/-- Nondeterministic inputs of one `Dashboard.tsx` message: the rendered
clock strings, the `Date.now()` reading, the `Math.random()` draws for the
intersection number and for `setAiLatency(30 + Math.random() * 30)`. -/
structure DashFresh where
  timeStr : String
  isoTime : String
  now : Nat
  loc : Nat
  latRand : ℚ

/-- The alert literal built by `Dashboard.tsx` on a qualifying prediction:
type `'Accident Detected'`, severity `'high'`, `status: 'active'`, no
coordinates, description or responders. -/
def mkDetectedAlert (f : DashFresh) : Alert where
  id := toString f.now
  type := "Accident Detected"
  severity := Severity.high
  location := "Intersection " ++ toString (f.loc % 100)
  timestamp := f.isoTime
  status := some AlertStatus.active

/-- The state consumed and mutated by the `Dashboard.tsx` subscription:
the context store (streetlights, alerts, energySavings, metrics) plus the
component's own history buffers and latency display. -/
structure DashState where
  streetlights : List Streetlight
  alerts : List Alert
  energySavings : ℚ
  metrics : Metrics
  powerHistory : List PowerPoint
  savingsHistory : List SavingsPoint
  occupancyHistory : List OccPoint
  aiLatency : ℚ
deriving DecidableEq

/-- `avgBrightness` in `Dashboard.tsx`: mean of `brightness_dist`, or `0`
when the list is empty. -/
def avgBrightness (dist : List ℚ) : ℚ :=
  if dist.length > 0 then dist.sum / (dist.length : ℚ) else 0

/-- The `onmessage` handler of `Dashboard.tsx`.  Its body is NOT wrapped in
`try`/`catch`: `JSON.parse` on a malformed payload throws out of the
handler, modelled as `Except.error`.  On a parsed record it processes each
present field in order: `streetlights` replaces the entity list wholesale,
`metrics` replaces the metrics slot, sets `energySavings`, and appends to
the three history buffers (capacities 20, 20, 50), and a qualifying
prediction adds an `'Accident Detected'` alert unless one of that type is
already present; finally `aiLatency` is refreshed. -/
def ingestDashboard (m : Msg) (f : DashFresh) (s : DashState) :
    Except Unit DashState :=
  match m with
  | Msg.malformed => Except.error ()
  | Msg.ok d =>
    let s1 := match d.streetlights with
      | some lights => { s with streetlights := lights }
      | none => s
    let s2 := match d.metrics with
      | some mtr =>
        { s1 with
          metrics := mtr
          energySavings := mtr.savings_vs_100
          powerHistory := pushHist 20 s1.powerHistory
            { time := f.timeStr, active := mtr.active_power
              base100 := mtr.baseline_100, base70 := mtr.baseline_70 }
          savingsHistory := pushHist 20 s1.savingsHistory
            { time := f.timeStr, sav100 := mtr.savings_vs_100, sav70 := mtr.savings_vs_70 }
          occupancyHistory := pushHist 50 s1.occupancyHistory
            { x := avgBrightness mtr.brightness_dist, y := mtr.occupancy } }
      | none => s1
    let s3 :=
      if d.prediction = some "Accident" ∧ confAbove90 d.confidence
          ∧ ¬ s2.alerts.any (fun a => decide (a.type = "Accident Detected")) then
        { s2 with alerts := addAlert s2.alerts (mkDetectedAlert f) }
      else s2
    Except.ok { s3 with aiLatency := 30 + f.latRand * 30 }

/-- The projector lookup: current state of an entity id, or `none` when the
id is unknown (spec `get(id)`); the stored entity list is searched by key. -/
def getLight (lights : List Streetlight) (id : String) : Option Streetlight :=
  lights.find? fun l => decide (l.id = id)

/-- `setStreetlights` in `SmartCityContext.tsx`: the incoming snapshot
replaces the stored entity list wholesale. -/
def applySnapshot (_prev : List Streetlight) (lights : List Streetlight) :
    List Streetlight :=
  lights

/-- Result projection for the Dashboard ingest: the stored entity list, or
`none` when the handler threw. -/
def projStreetlights : Except Unit DashState → Option (List Streetlight)
  | Except.ok s => some s.streetlights
  | Except.error _ => none

/-- Result projection for the Dashboard ingest: the stored metrics slot, or
`none` when the handler threw. -/
def projMetrics : Except Unit DashState → Option Metrics
  | Except.ok s => some s.metrics
  | Except.error _ => none

/-- Result projection for the Dashboard ingest: the power history buffer,
or `none` when the handler threw. -/
def projPowerHistory : Except Unit DashState → Option (List PowerPoint)
  | Except.ok s => some s.powerHistory
  | Except.error _ => none

/-- A parsed stream record carrying an accident prediction at 95%
confidence. -/
def d95 : StreamData := { prediction := some "Accident", confidence := some 95 }

/-- A parsed stream record carrying an accident prediction at 96%
confidence. -/
def d96 : StreamData := { prediction := some "Accident", confidence := some 96 }

/-- Concrete nondeterministic inputs: clock reading 1000 ms. -/
def f1 : Fresh := { now := 1000, loc := 7, coord := (0, 0), resp := 0 }

/-- Concrete nondeterministic inputs: clock reading 2000 ms. -/
def f2 : Fresh := { now := 2000, loc := 8, coord := (0, 0), resp := 1 }

/-- Concrete nondeterministic inputs: a second creation within the same
millisecond as `f1`. -/
def f3 : Fresh := { now := 1000, loc := 9, coord := (0, 0), resp := 2 }

/-- Concrete nondeterministic inputs for one Dashboard message. -/
def g0 : DashFresh :=
  { timeStr := "12:00:00", isoTime := "2026-01-01T12:00:00Z", now := 3000, loc := 1, latRand := 0 }

/-- The initial dashboard state: the `useState` initial values of
`SmartCityContext.tsx` and `Dashboard.tsx` (energySavings 73, zeroed
metrics, empty lists, aiLatency 47). -/
def dash0 : DashState where
  streetlights := []
  alerts := []
  energySavings := 73
  metrics := initialMetrics
  powerHistory := []
  savingsHistory := []
  occupancyHistory := []
  aiLatency := 47

/-- The ids of the alerts in a list, in order. -/
def alertIds (alerts : List Alert) : List String :=
  alerts.map fun a => a.id

/-- A concrete active accident alert with one responder. -/
def a1 : Alert :=
  { id := "1", type := "accident", severity := Severity.critical,
    location := "x", timestamp := "t", status := some AlertStatus.active,
    responders := some 1 }

/-- A metrics record carrying out-of-range percentage values. -/
def mtrBad : Metrics :=
  { active_power := 10, baseline_100 := 20, baseline_70 := 15,
    savings_vs_100 := 150, savings_vs_70 := -5, brightness_dist := [120],
    occupancy := 3, pedestrians := 1, vehicles := 2, sim_time := 1 }

/-- A parsed stream record carrying only `mtrBad`. -/
def dMtr : StreamData := { metrics := some mtrBad }

/-- An entity snapshot carrying an out-of-range brightness value. -/
def badLight : Streetlight := { id := "L1", brightness := 150, status := "active" }

/-- A parsed stream record whose `streetlights` field holds `badLight`. -/
def dBad : StreamData := { streetlights := some [badLight] }

/-! Helper development: `toString : Nat → String` (i.e. `Nat.repr`, used for
`Date.now().toString()` alert ids) is injective, via a decimal decoding of
the digit characters produced by `Nat.toDigitsCore`. -/

/-- Decode a list of decimal digit characters, most significant first,
accumulator form. -/
def decVal : List Char → Nat → Nat
  | [], a => a
  | c :: cs, a => decVal cs (a * 10 + (c.toNat - '0'.toNat))

theorem decVal_acc (cs : List Char) : ∀ a : Nat,
    decVal cs a = a * 10 ^ cs.length + decVal cs 0 := by
  induction cs with
  | nil => intro a; simp [decVal]
  | cons c cs ih =>
    intro a
    simp only [decVal, List.length_cons]
    rw [ih (a * 10 + (c.toNat - '0'.toNat)), ih (0 * 10 + (c.toNat - '0'.toNat))]
    ring

theorem digitChar_decode (n : Nat) :
    (Nat.digitChar (n % 10)).toNat - '0'.toNat = n % 10 := by
  have h : n % 10 < 10 := Nat.mod_lt _ (by norm_num)
  set r := n % 10 with hr
  interval_cases r <;> rfl

theorem decVal_toDigitsCore :
    ∀ (fuel n : Nat) (ds : List Char), n < fuel →
      decVal (Nat.toDigitsCore 10 fuel n ds) 0 = n * 10 ^ ds.length + decVal ds 0 := by
  intro fuel
  induction fuel with
  | zero => omega
  | succ fuel ih =>
    intro n ds hn
    show decVal (if n / 10 = 0 then Nat.digitChar (n % 10) :: ds
      else Nat.toDigitsCore 10 fuel (n / 10) (Nat.digitChar (n % 10) :: ds)) 0
      = n * 10 ^ ds.length + decVal ds 0
    have hmod := Nat.div_add_mod n 10
    have hcons : decVal (Nat.digitChar (n % 10) :: ds) 0
        = (n % 10) * 10 ^ ds.length + decVal ds 0 := by
      show decVal ds (0 * 10 + ((Nat.digitChar (n % 10)).toNat - '0'.toNat))
        = (n % 10) * 10 ^ ds.length + decVal ds 0
      rw [digitChar_decode, decVal_acc]
      ring_nf
    by_cases h : n / 10 = 0
    · rw [if_pos h, hcons]
      have : n % 10 = n := by omega
      rw [this]
    · rw [if_neg h]
      have hlt : n / 10 < fuel := by
        have h1 : n / 10 < n := Nat.div_lt_self (by omega) (by norm_num)
        omega
      rw [ih (n / 10) (Nat.digitChar (n % 10) :: ds) hlt, hcons,
        List.length_cons, pow_succ]
      calc n / 10 * (10 ^ ds.length * 10) + ((n % 10) * 10 ^ ds.length + decVal ds 0)
          = (10 * (n / 10) + n % 10) * 10 ^ ds.length + decVal ds 0 := by ring
        _ = n * 10 ^ ds.length + decVal ds 0 := by rw [hmod]

theorem decVal_toDigits (n : Nat) : decVal (Nat.toDigits 10 n) 0 = n := by
  show decVal (Nat.toDigitsCore 10 (n + 1) n []) 0 = n
  rw [decVal_toDigitsCore (n + 1) n [] (Nat.lt_succ_self n)]
  simp [decVal]

theorem natToString_injective : Function.Injective (fun n : Nat => toString n) := by
  intro m n h
  have hd : Nat.toDigits 10 m = Nat.toDigits 10 n := congrArg String.data h
  have hv := congrArg (fun l => decVal l 0) hd
  simpa [decVal_toDigits] using hv

/-! Helper lemmas about the history-buffer push. -/

theorem pushHist_window (C : Nat) (l : List α) (x : α) :
    pushHist C (l.drop (l.length - C)) x = (l ++ [x]).drop ((l ++ [x]).length - C) := by
  simp only [pushHist]
  have hsplit : (l ++ [x]).drop (l.length - C) = l.drop (l.length - C) ++ [x] := by
    rw [List.drop_append_eq_append_drop]
    have h0 : l.length - C - l.length = 0 := by omega
    rw [h0]
    rfl
  rw [← hsplit, List.drop_drop]
  congr 1
  simp only [List.length_drop, List.length_append, List.length_cons, List.length_nil]
  omega

theorem foldl_pushHist (C : Nat) : ∀ (xs : List α) (l : List α),
    xs.foldl (pushHist C) (l.drop (l.length - C)) = (l ++ xs).drop ((l ++ xs).length - C) := by
  intro xs
  induction xs with
  | nil => intro l; simp
  | cons x xs ih =>
    intro l
    rw [List.foldl_cons, pushHist_window, ih (l ++ [x])]
    simp

theorem foldl_pushHist_nil (C : Nat) (xs : List α) :
    xs.foldl (pushHist C) [] = xs.drop (xs.length - C) := by
  have h := foldl_pushHist C xs []
  simpa using h

end SmartCity

namespace SmartCity

/-- C4: appending a sequence of points to a history buffer through
`pushHist` (the `slice(-C)` append of `Dashboard.tsx`, instantiated at
C = 20 for the power and savings series and C = 50 for the occupancy
series by `ingestDashboard`) leaves, after `N ≥ C` appends, exactly the
last `C` appended values in arrival order; the buffer never exceeds
capacity `C`; and 25 appends to a capacity-20 buffer leave exactly points
6 through 25. -/
theorem C4_ring_buffer :
    (∀ (α : Type) (C : Nat) (xs : List α), C ≤ xs.length →
      xs.foldl (pushHist C) [] = xs.drop (xs.length - C))
    ∧ (∀ (α : Type) (C : Nat) (xs : List α), (xs.foldl (pushHist C) []).length ≤ C)
    ∧ (List.range' 1 25).foldl (pushHist 20) [] = List.range' 6 20
    ∧ (∀ (s : DashState) (f : DashFresh) (d : StreamData) (mtr : Metrics),
        d.metrics = some mtr →
        projPowerHistory (ingestDashboard (Msg.ok d) f s)
          = some (pushHist 20 s.powerHistory
              { time := f.timeStr, active := mtr.active_power
                base100 := mtr.baseline_100, base70 := mtr.baseline_70 })) := by
  refine ⟨fun α C xs _ => foldl_pushHist_nil C xs, fun α C xs => ?_, by decide,
    fun s f d mtr hm => ?_⟩
  · rw [foldl_pushHist_nil]
    simp only [List.length_drop]
    omega
  · simp only [ingestDashboard, hm]
    cases d.streetlights <;> split <;> rfl

/-- Witness for C4: 25 concrete appends to a capacity-20 buffer yield the
last 20 points. -/
theorem C4_ring_buffer_witness :
    (List.range' 1 25).foldl (pushHist 20) []
      = (List.range' 1 25).drop ((List.range' 1 25).length - 20) :=
  C4_ring_buffer.1 Nat 20 (List.range' 1 25) (by decide)

/-- C9: re-applying `applySnapshot` (the wholesale `setStreetlights`
replacement) with the same entity sequence is idempotent, and each snapshot
wholly replaces the previous map: the lookup view agrees exactly with the
new sequence, and an id absent from the new snapshot is absent from the
map. -/
theorem C9_snapshot_replacement :
    (∀ prev es : List Streetlight,
      applySnapshot (applySnapshot prev es) es = applySnapshot prev es)
    ∧ (∀ (prev es : List Streetlight) (id : String),
        getLight (applySnapshot prev es) id = getLight es id)
    ∧ (∀ (prev es : List Streetlight) (id : String),
        (∀ l ∈ es, l.id ≠ id) → getLight (applySnapshot prev es) id = none) := by
  refine ⟨fun _ _ => rfl, fun _ _ _ => rfl, fun prev es id h => ?_⟩
  simp only [applySnapshot, getLight]
  rw [List.find?_eq_none]
  intro a ha
  simpa using h a ha

/-- Witness for C9: a concrete entity present before but omitted from the
new snapshot is absent afterwards. -/
theorem C9_snapshot_replacement_witness :
    getLight (applySnapshot [⟨"L2", 40, "active"⟩] [⟨"L1", 50, "active"⟩]) "L2" = none :=
  C9_snapshot_replacement.2.2 [⟨"L2", 40, "active"⟩] [⟨"L1", 50, "active"⟩] "L2"
    (by decide)

/-- C10: the derived `activeIncidents` count always equals the number of
alerts whose status is `active` plus the number whose status is
`investigating`; an alert whose status is `resolved` or absent does not
contribute, and an `active` or `investigating` alert contributes exactly
one.  Since `activeIncidents` is recomputed from the alert list, this holds
after every mutation. -/
theorem C10_active_incidents :
    (∀ alerts : List Alert,
      activeIncidents alerts
        = alerts.countP (fun a => decide (a.status = some AlertStatus.active))
          + alerts.countP (fun a => decide (a.status = some AlertStatus.investigating)))
    ∧ (∀ (a : Alert) (alerts : List Alert),
        a.status = some AlertStatus.resolved ∨ a.status = none →
        activeIncidents (a :: alerts) = activeIncidents alerts)
    ∧ (∀ (a : Alert) (alerts : List Alert),
        a.status = some AlertStatus.active ∨ a.status = some AlertStatus.investigating →
        activeIncidents (a :: alerts) = activeIncidents alerts + 1) := by
  refine ⟨fun alerts => ?_, fun a alerts h => ?_, fun a alerts h => ?_⟩
  · induction alerts with
    | nil => rfl
    | cons a l ih =>
      have hcons : activeIncidents (a :: l)
          = activeIncidents l
            + (if a.status = some AlertStatus.active
                  ∨ a.status = some AlertStatus.investigating then 1 else 0) := by
        by_cases h : a.status = some AlertStatus.active
            ∨ a.status = some AlertStatus.investigating
        · simp [activeIncidents, List.filter_cons, h]
        · simp [activeIncidents, List.filter_cons, h]
      rw [hcons, List.countP_cons, List.countP_cons, ih]
      by_cases h1 : a.status = some AlertStatus.active
      · simp only [h1]
        simp
        omega
      · by_cases h2 : a.status = some AlertStatus.investigating
        · simp only [h2]
          simp
          omega
        · simp [h1, h2]
  · rcases h with h | h <;> simp [activeIncidents, List.filter_cons, h]
  · rcases h with h | h <;> simp [activeIncidents, List.filter_cons, h]

/-- Witness for C10: concrete alerts of each status; the resolved and
status-less alerts are excluded from the count. -/
theorem C10_active_incidents_witness :
    activeIncidents
      [{ id := "1", type := "accident", severity := Severity.critical,
         location := "x", timestamp := "t", status := some AlertStatus.resolved },
       { id := "2", type := "accident", severity := Severity.high,
         location := "x", timestamp := "t", status := some AlertStatus.active }]
      = activeIncidents
        [{ id := "2", type := "accident", severity := Severity.high,
           location := "x", timestamp := "t", status := some AlertStatus.active }] :=
  C10_active_incidents.2.1
    { id := "1", type := "accident", severity := Severity.critical,
      location := "x", timestamp := "t", status := some AlertStatus.resolved }
    [{ id := "2", type := "accident", severity := Severity.high,
       location := "x", timestamp := "t", status := some AlertStatus.active }]
    (Or.inl rfl)

/-- C8: `updateAlert` with an id unknown to the list is a silent no-op (no
error); with a known id it merges exactly the provided patch fields into
the matching alert, keeps its unprovided fields, leaves every other alert
untouched, and preserves the list's length and order. -/
theorem C8_update_merge (alerts : List Alert) (alertId : String) (p : AlertPatch) :
    ((∀ a ∈ alerts, a.id ≠ alertId) → updateAlert alerts alertId p = alerts)
    ∧ (updateAlert alerts alertId p).length = alerts.length
    ∧ (∀ (i : Nat) (h : i < alerts.length),
        (updateAlert alerts alertId p).get ⟨i, by simpa [updateAlert] using h⟩
          = if (alerts.get ⟨i, h⟩).id = alertId
            then mergeAlert (alerts.get ⟨i, h⟩) p
            else alerts.get ⟨i, h⟩)
    ∧ (∀ (a : Alert) (s : AlertStatus),
        p.status = some s → (mergeAlert a p).status = some s)
    ∧ (∀ a : Alert, p.status = none → (mergeAlert a p).status = a.status)
    ∧ (∀ (a : Alert) (r : ℚ),
        p.responders = some r → (mergeAlert a p).responders = some r)
    ∧ (∀ a : Alert, p.responders = none → (mergeAlert a p).responders = a.responders) := by
  refine ⟨fun h => ?_, by simp [updateAlert], fun i h => by simp [updateAlert],
    fun a s hs => by simp [mergeAlert, hs], fun a hs => by simp [mergeAlert, hs],
    fun a r hr => by simp [mergeAlert, hr], fun a hr => by simp [mergeAlert, hr]⟩
  rw [updateAlert]
  conv_rhs => rw [← List.map_id alerts]
  apply List.map_congr_left
  intro a ha
  simp [if_neg (h a ha)]

/-- Witness for C8: updating an id absent from a concrete one-alert list
leaves the list unchanged. -/
theorem C8_update_merge_witness :
    updateAlert
      [{ id := "1", type := "accident", severity := Severity.critical,
         location := "x", timestamp := "t", status := some AlertStatus.active }]
      "2" { status := some AlertStatus.resolved }
      = [{ id := "1", type := "accident", severity := Severity.critical,
           location := "x", timestamp := "t", status := some AlertStatus.active }] :=
  (C8_update_merge
      [{ id := "1", type := "accident", severity := Severity.critical,
         location := "x", timestamp := "t", status := some AlertStatus.active }]
      "2" { status := some AlertStatus.resolved }).1 (by decide)

/-- Counterexample to C2 as stated: the `Request Ambulance` dispatch on an
existing concrete alert with one responder never increments the responders
count (and performs no optimistic update) — after an acknowledged
(`status: 'ok'`) ambulance dispatch the alert is `investigating` but its
responders count is still 1, not 2. -/
theorem C2_counterexample :
    ambulanceSend [a1] a1 DispatchOutcome.ok
        = [{ a1 with status := some AlertStatus.investigating }]
    ∧ alertResponders (ambulanceSend [a1] a1 DispatchOutcome.ok) = [some 1]
    ∧ alertResponders [a1] = [some 1] := by
  decide

/-- C2 amended: the `Send Response` dispatch (action `'dispatch'`) on a
rendered alert `a` first optimistically sets its status to `investigating`
and bumps its responders to one more than the rendered count
(`(alert.responders || 0) + 1`); an acknowledged (`ok`) outcome leaves the
status `investigating`, while a non-`ok` response and a thrown network
failure both revert the status to `active`, keep the responders increment,
and produce identical final alert lists.  The `Request Ambulance` dispatch
(action `'ambulance'`) performs no optimistic update and never touches
responders: it sets `investigating` on `ok` and `active` on any failure,
with non-`ok` response and network failure likewise identical. -/
theorem C2_dispatch (alerts : List Alert) (a : Alert) :
    (∀ outcome : DispatchOutcome,
      dispatchSend alerts a outcome = alerts.map fun b =>
        if b.id = a.id then
          { b with
            status := some (match outcome with
              | DispatchOutcome.ok => AlertStatus.investigating
              | DispatchOutcome.nonOk => AlertStatus.active
              | DispatchOutcome.networkFailure => AlertStatus.active)
            responders := some (a.responders.getD 0 + 1) }
        else b)
    ∧ dispatchSend alerts a DispatchOutcome.nonOk
        = dispatchSend alerts a DispatchOutcome.networkFailure
    ∧ dispatchBegin alerts a = (alerts.map fun b =>
        if b.id = a.id then
          { b with status := some AlertStatus.investigating
                   responders := some (a.responders.getD 0 + 1) }
        else b)
    ∧ (a ∈ alerts →
        { a with status := some AlertStatus.investigating
                 responders := some (a.responders.getD 0 + 1) }
          ∈ dispatchSend alerts a DispatchOutcome.ok)
    ∧ (a ∈ alerts → ∀ outcome : DispatchOutcome, outcome ≠ DispatchOutcome.ok →
        { a with status := some AlertStatus.active
                 responders := some (a.responders.getD 0 + 1) }
          ∈ dispatchSend alerts a outcome)
    ∧ (∀ outcome : DispatchOutcome,
        ambulanceSend alerts a outcome = alerts.map fun b =>
          if b.id = a.id then
            { b with
              status := some (match outcome with
                | DispatchOutcome.ok => AlertStatus.investigating
                | DispatchOutcome.nonOk => AlertStatus.active
                | DispatchOutcome.networkFailure => AlertStatus.active) }
          else b)
    ∧ ambulanceSend alerts a DispatchOutcome.nonOk
        = ambulanceSend alerts a DispatchOutcome.networkFailure
    ∧ (∀ outcome : DispatchOutcome,
        alertResponders (ambulanceSend alerts a outcome) = alertResponders alerts) := by
  have hbegin : dispatchBegin alerts a = (alerts.map fun b =>
      if b.id = a.id then
        { b with status := some AlertStatus.investigating
                 responders := some (a.responders.getD 0 + 1) }
      else b) := by
    simp only [dispatchBegin, updateAlert]
    apply List.map_congr_left
    intro b hb
    by_cases h : b.id = a.id <;> simp [h, mergeAlert]
  have hmap : ∀ outcome : DispatchOutcome,
      dispatchSend alerts a outcome = alerts.map fun b =>
        if b.id = a.id then
          { b with
            status := some (match outcome with
              | DispatchOutcome.ok => AlertStatus.investigating
              | DispatchOutcome.nonOk => AlertStatus.active
              | DispatchOutcome.networkFailure => AlertStatus.active)
            responders := some (a.responders.getD 0 + 1) }
        else b := by
    intro outcome
    cases outcome <;>
      simp only [dispatchSend, dispatchEnd, dispatchBegin, updateAlert, List.map_map] <;>
      apply List.map_congr_left <;>
      intro b hb <;>
      by_cases h : b.id = a.id <;>
      simp [h, mergeAlert]
  have hamb : ∀ outcome : DispatchOutcome,
      ambulanceSend alerts a outcome = alerts.map fun b =>
        if b.id = a.id then
          { b with
            status := some (match outcome with
              | DispatchOutcome.ok => AlertStatus.investigating
              | DispatchOutcome.nonOk => AlertStatus.active
              | DispatchOutcome.networkFailure => AlertStatus.active) }
        else b := by
    intro outcome
    cases outcome <;>
      simp only [ambulanceSend, updateAlert] <;>
      apply List.map_congr_left <;>
      intro b hb <;>
      by_cases h : b.id = a.id <;>
      simp [h, mergeAlert]
  have hresp : ∀ outcome : DispatchOutcome,
      alertResponders (ambulanceSend alerts a outcome) = alertResponders alerts := by
    intro outcome
    simp only [alertResponders]
    rw [hamb outcome, List.map_map]
    apply List.map_congr_left
    intro b hb
    by_cases h : b.id = a.id <;> simp [h]
  refine ⟨hmap, by rw [hmap, hmap], hbegin, fun ha => ?_, fun ha outcome ho => ?_,
    hamb, by rw [hamb, hamb], hresp⟩
  · rw [hmap]
    have := List.mem_map_of_mem (fun b =>
      if b.id = a.id then
        { b with
          status := some AlertStatus.investigating
          responders := some (a.responders.getD 0 + 1) }
      else b) ha
    simpa using this
  · rw [hmap]
    cases outcome with
    | ok => exact absurd rfl ho
    | nonOk =>
      have := List.mem_map_of_mem (fun b =>
        if b.id = a.id then
          { b with
            status := some AlertStatus.active
            responders := some (a.responders.getD 0 + 1) }
        else b) ha
      simpa using this
    | networkFailure =>
      have := List.mem_map_of_mem (fun b =>
        if b.id = a.id then
          { b with
            status := some AlertStatus.active
            responders := some (a.responders.getD 0 + 1) }
        else b) ha
      simpa using this

/-- Witness for C2: an acknowledged dispatch on a concrete singleton list
leaves the alert `investigating` with its responders bumped from 1 to 2. -/
theorem C2_dispatch_witness :
    { id := "1", type := "accident", severity := Severity.critical,
      location := "x", timestamp := "t", status := some AlertStatus.investigating,
      responders := some ((1 : ℚ) + 1) }
      ∈ dispatchSend
          [{ id := "1", type := "accident", severity := Severity.critical,
             location := "x", timestamp := "t", status := some AlertStatus.active,
             responders := some 1 }]
          { id := "1", type := "accident", severity := Severity.critical,
            location := "x", timestamp := "t", status := some AlertStatus.active,
            responders := some 1 }
          DispatchOutcome.ok := by
  have h := (C2_dispatch
      [{ id := "1", type := "accident", severity := Severity.critical,
         location := "x", timestamp := "t", status := some AlertStatus.active,
         responders := some 1 }]
      { id := "1", type := "accident", severity := Severity.critical,
        location := "x", timestamp := "t", status := some AlertStatus.active,
        responders := some 1 }).2.2.2.1 (by simp)
  simpa using h

/-- C3: a prediction `Accident` with confidence above 90 arriving while no
accident alert is active creates exactly one new alert — status `active`,
severity `critical`, positive responders count — inserted at the front of
the window, the rest being the previous list truncated to the 20-cap
(evicting the oldest, last entry when the list was full); every other
prediction leaves the alert list unchanged. -/
theorem C3_prediction (alerts : List Alert) (d : StreamData) (f : Fresh) :
    (d.prediction = some "Accident" → confAbove90 d.confidence = true →
      hasActiveAccident alerts = false →
      reconcile alerts d f
          = mkAccidentAlert (d.confidence.getD 0) f :: alerts.take 19
      ∧ (mkAccidentAlert (d.confidence.getD 0) f).status = some AlertStatus.active
      ∧ (mkAccidentAlert (d.confidence.getD 0) f).severity = Severity.critical
      ∧ (∃ r : ℚ, (mkAccidentAlert (d.confidence.getD 0) f).responders = some r ∧ 0 < r)
      ∧ (reconcile alerts d f).length = min 20 (alerts.length + 1)
      ∧ (alerts.length = 20 →
          reconcile alerts d f
            = mkAccidentAlert (d.confidence.getD 0) f :: alerts.dropLast))
    ∧ ((d.prediction ≠ some "Accident" ∨ confAbove90 d.confidence = false
          ∨ hasActiveAccident alerts = true) →
        reconcile alerts d f = alerts) := by
  constructor
  · intro h1 h2 h3
    have hrec : reconcile alerts d f
        = addAlert alerts (mkAccidentAlert (d.confidence.getD 0) f) := by
      simp [reconcile, h1, h2, h3]
    have htake : addAlert alerts (mkAccidentAlert (d.confidence.getD 0) f)
        = mkAccidentAlert (d.confidence.getD 0) f :: alerts.take 19 := by
      simp [addAlert]
    refine ⟨hrec.trans htake, rfl, rfl,
      ⟨((f.resp % 3 + 1 : ℕ) : ℚ), rfl, by exact_mod_cast Nat.succ_pos (f.resp % 3)⟩,
      ?_, fun h20 => ?_⟩
    · rw [hrec]
      simp [addAlert]
      omega
    · rw [hrec, htake, List.dropLast_eq_take, h20]
  · intro h
    rcases h with h | h | h <;> simp [reconcile, h]

/-- Witness for C3: the concrete record `d95` ingested on an empty alert
list creates exactly the one new accident alert. -/
theorem C3_prediction_witness :
    reconcile [] d95 f1 = [mkAccidentAlert 95 f1] := by
  have h := ((C3_prediction [] d95 f1).1 rfl (by decide) rfl).1
  simpa [d95] using h

/-! Helper lemmas for the accident-dedup invariant. -/

theorem hasActiveAccident_false_iff (alerts : List Alert) :
    hasActiveAccident alerts = false ↔ countActiveAccident alerts = 0 := by
  simp [hasActiveAccident, countActiveAccident, List.any_eq_false,
    List.countP_eq_zero]

theorem reconcile_preserves_dedup (alerts : List Alert) (d : StreamData) (f : Fresh)
    (h : countActiveAccident alerts ≤ 1) :
    countActiveAccident (reconcile alerts d f) ≤ 1 := by
  by_cases hc : d.prediction = some "Accident" ∧ confAbove90 d.confidence = true
  · by_cases ha : hasActiveAccident alerts = true
    · simpa [reconcile, hc.1, hc.2, ha] using h
    · have ha0 : countActiveAccident alerts = 0 :=
        (hasActiveAccident_false_iff alerts).mp (by simpa using ha)
      have hrec : reconcile alerts d f
          = addAlert alerts (mkAccidentAlert (d.confidence.getD 0) f) := by
        simp [reconcile, hc.1, hc.2, by simpa using ha]
      rw [hrec]
      have htake : countActiveAccident (alerts.take 19) ≤ countActiveAccident alerts :=
        (List.take_sublist 19 alerts).countP_le _
      have hcons : countActiveAccident
          (mkAccidentAlert (d.confidence.getD 0) f :: alerts.take 19)
          = countActiveAccident (alerts.take 19) + 1 := by
        simp [countActiveAccident, List.countP_cons, mkAccidentAlert]
      have haddeq : addAlert alerts (mkAccidentAlert (d.confidence.getD 0) f)
          = mkAccidentAlert (d.confidence.getD 0) f :: alerts.take 19 := by
        simp [addAlert]
      rw [haddeq, hcons]
      omega
  · have : reconcile alerts d f = alerts := by
      rcases not_and_or.mp hc with h1 | h2
      · simp [reconcile, h1]
      · have : confAbove90 d.confidence = false := by
          cases hcc : confAbove90 d.confidence
          · rfl
          · exact absurd hcc h2
        simp [reconcile, this]
    rwa [this]

theorem ingest_preserves_dedup (alerts : List Alert) (m : Msg) (f : Fresh)
    (h : countActiveAccident alerts ≤ 1) :
    countActiveAccident (stepAlert alerts (Action.ingest m f)) ≤ 1 := by
  cases m with
  | malformed => exact h
  | ok d => exact reconcile_preserves_dedup alerts d f h

/-- Counterexample to C1 as stated: starting from an empty list, ingest an
accident prediction (alert created `active`), begin a dispatch on it
(optimistically `investigating`), ingest a second accident prediction while
the first request is in flight (a second alert is created because no
accident alert is `active`), then let the dispatch fail (the first alert
reverts to `active`) — the list now holds two `accident` alerts that are
simultaneously `active`. -/
theorem C1_counterexample :
    countActiveAccident (runAlerts []
      [Action.ingest (Msg.ok d95) f1,
       Action.dispatchBegin (mkAccidentAlert 95 f1),
       Action.ingest (Msg.ok d96) f2,
       Action.dispatchEnd (mkAccidentAlert 95 f1) DispatchOutcome.networkFailure])
      = 2 := by
  decide

/-- C1 amended: the dedup rule holds for stream ingestion alone — for every
sequence of ingested messages starting from an alert list with at most one
`active` `accident` alert, at most one `accident` alert is `active` at
every point; the revert of a failed dispatch that was in flight when a new
accident alert was created (and direct status updates) can break it. -/
theorem C1_amended (s : List Alert) (hs : countActiveAccident s ≤ 1)
    (msgs : List (Msg × Fresh)) :
    countActiveAccident
      (msgs.foldl (fun t mf => stepAlert t (Action.ingest mf.1 mf.2)) s) ≤ 1 := by
  induction msgs generalizing s with
  | nil => exact hs
  | cons mf msgs ih =>
    exact ih _ (ingest_preserves_dedup s mf.1 mf.2 hs)

/-- Witness for C1 (amended): two concrete accident predictions in a row
leave exactly one active accident alert. -/
theorem C1_amended_witness :
    countActiveAccident
      ([(Msg.ok d95, f1), (Msg.ok d96, f2)].foldl
        (fun t mf => stepAlert t (Action.ingest mf.1 mf.2)) []) ≤ 1 :=
  C1_amended [] (by decide) [(Msg.ok d95, f1), (Msg.ok d96, f2)]

/-- Counterexample to C5 as stated: a malformed payload makes the
`Dashboard.tsx` ingest path throw (its handler has no `try`/`catch` around
`JSON.parse`), rather than dropping the message with a logged diagnostic. -/
theorem C5_counterexample :
    ingestDashboard Msg.malformed g0 dash0 = Except.error () := rfl

/-- C5 amended: the `EmergencyAlerts.tsx` consumer's ingest is total — a
malformed payload is dropped, the diagnostic counter is bumped and the
alert state is untouched; the `Dashboard.tsx` consumer instead propagates
the parse exception on every malformed payload (producing no state change,
but escaping the handler). -/
theorem C5_amended (s : EAState) (f : Fresh) (t : DashState) (g : DashFresh) :
    ingestEA s Msg.malformed f
        = { s with decodeFailures := s.decodeFailures + 1 }
    ∧ (ingestEA s Msg.malformed f).alerts = s.alerts
    ∧ ingestDashboard Msg.malformed g t = Except.error () :=
  ⟨rfl, rfl, rfl⟩

/-- Counterexample to C6 as stated: an entity snapshot carrying brightness
150 is stored as-is — no clamp into `[0,100]` happens anywhere on the
ingest path. -/
theorem C6_counterexample :
    projStreetlights (ingestDashboard (Msg.ok dBad) g0 dash0) = some [badLight]
    ∧ 100 < badLight.brightness :=
  ⟨by decide, by decide⟩

/-- C6 amended: the projector performs no clamping — entity snapshots and
metrics snapshots are each stored exactly as received, so stored brightness
values lie in `[0,100]` precisely when the producer's values do. -/
theorem C6_amended (s : DashState) (f : DashFresh) (d : StreamData) :
    (∀ lights : List Streetlight, d.streetlights = some lights →
        projStreetlights (ingestDashboard (Msg.ok d) f s) = some lights)
    ∧ (∀ mtr : Metrics, d.metrics = some mtr →
        projMetrics (ingestDashboard (Msg.ok d) f s) = some mtr)
    ∧ (∀ lights : List Streetlight, d.streetlights = some lights →
        (∀ l ∈ lights, 0 ≤ l.brightness ∧ l.brightness ≤ 100) →
        ∀ l ∈ (projStreetlights (ingestDashboard (Msg.ok d) f s)).getD [],
          0 ≤ l.brightness ∧ l.brightness ≤ 100) := by
  have hstreet : ∀ lights : List Streetlight, d.streetlights = some lights →
      projStreetlights (ingestDashboard (Msg.ok d) f s) = some lights := by
    intro lights hl
    simp only [ingestDashboard, hl]
    cases d.metrics <;> split <;> rfl
  refine ⟨hstreet, fun mtr hm => ?_, fun lights hl hrange l hlmem => ?_⟩
  · simp only [ingestDashboard, hm]
    cases d.streetlights <;> split <;> rfl
  · rw [hstreet lights hl] at hlmem
    exact hrange l (by simpa using hlmem)

/-- Witness for C6 (amended): a concrete in-range entity snapshot is stored
exactly, and a metrics-only message with out-of-range percentage values is
also stored exactly as received. -/
theorem C6_amended_witness :
    projStreetlights
        (ingestDashboard (Msg.ok { streetlights := some [⟨"L1", 50, "active"⟩] }) g0 dash0)
      = some [⟨"L1", 50, "active"⟩]
    ∧ projMetrics (ingestDashboard (Msg.ok dMtr) g0 dash0) = some mtrBad :=
  ⟨(C6_amended dash0 g0 { streetlights := some [⟨"L1", 50, "active"⟩] }).1
      [⟨"L1", 50, "active"⟩] rfl,
   (C6_amended dash0 g0 dMtr).2.1 mtrBad rfl⟩

/-- Counterexample to C7 as stated: a reachable run in which two alerts are
created within the same millisecond (clock reading 1000 both times) leaves
an alert list whose ids are not pairwise distinct. -/
theorem C7_counterexample :
    ¬ (alertIds (runAlerts []
      [Action.ingest (Msg.ok d95) f1,
       Action.dispatchBegin (mkAccidentAlert 95 f1),
       Action.ingest (Msg.ok d96) f3])).Nodup := by
  decide

/-- C7 amended: an alert id is the `Date.now()` millisecond reading
rendered as a string, so alerts created at distinct clock readings have
distinct ids; two creations within one millisecond share an id. -/
theorem C7_amended (c1 c2 : ℚ) (f g : Fresh) (df : DashFresh)
    (hfg : f.now ≠ g.now) (hfd : f.now ≠ df.now) :
    (mkAccidentAlert c1 f).id ≠ (mkAccidentAlert c2 g).id
    ∧ (mkAccidentAlert c1 f).id ≠ (mkDetectedAlert df).id := by
  refine ⟨fun h => hfg (natToString_injective h), fun h => hfd (natToString_injective h)⟩

/-- Witness for C7 (amended): concrete creations at 1000 ms, 2000 ms and
3000 ms have pairwise distinct ids. -/
theorem C7_amended_witness :
    (mkAccidentAlert 95 f1).id ≠ (mkAccidentAlert 96 f2).id
    ∧ (mkAccidentAlert 95 f1).id ≠ (mkDetectedAlert g0).id :=
  C7_amended 95 96 f1 f2 g0 (by decide) (by decide)

end SmartCity
